import Mathlib

/-!
# Book / publisher CRUD handlers (`server/index.js`)

A shallow embedding of the eight Express route handlers of `server/index.js`
and of the SQL statements they send through `db.query`.

* The two tables are lists of rows, in table order; a `SELECT` without
  `ORDER BY` returns rows in that order.
* Every handler is a function from the storage state to the list of effects it
  performs (statements issued, console lines, responses sent) and the storage
  state it leaves behind.
* A statement either fails with an error value, in which case it changes
  nothing and the callback receives `err`, or runs to completion.  Which
  statements fail is an input of the model (`Faults`).
-/

namespace CrudBackend

/-! ## Data model -/

/-- Value of a DATE column: year, month and day numbers (year at most 9999,
month at most 12, day at most 31). -/
structure Date where
  year : Nat
  month : Nat
  day : Nat
deriving DecidableEq, Repr

/-- Value bound to a `?` placeholder, or held by a nullable integer column, as
it takes part in an `=` comparison with an integer key: `some n` when it is
the integer `n`, `none` when it is equal to no integer (SQL NULL, a field
missing from the JSON body, a number with a fractional part).  A value that
compares equal to the integer `n` is stored as `n` when it is written to an
integer column. -/
abbrev Key := Option Int

/-- Modelled from the spec: the schema of table `publisher` is not in the
source; the spec gives an integer `id` generated by the storage and three
strings. -/
structure Publisher where
  id : Int
  name : String
  address : String
  contact : String
deriving DecidableEq, Repr

/-- Modelled from the spec: the schema of table `book` is not in the source;
the spec gives an integer `id` generated by the storage, a string, a calendar
date and the foreign key `publisher_id`.  The foreign key is not enforced by
the storage, so the column may hold any integer or NULL. -/
structure Book where
  id : Int
  name : String
  date : Date
  publisher_id : Key
deriving DecidableEq, Repr

/-- Storage state reached through the connection `db`: both tables in table
order and, for each, the value the storage will generate for the next
inserted `id`. -/
structure Storage where
  book : List Book
  publisher : List Publisher
  bookAuto : Int
  publisherAuto : Int
deriving DecidableEq, Repr

/-- Error value handed to a `db.query` callback as `err`. -/
structure DbError where
  code : String
  sqlMessage : String
deriving DecidableEq, Repr

/-- SQL `column = ?` on an integer key: true only when both sides are
integers and are the same integer (a comparison with NULL is never true). -/
def keyEq (column param : Key) : Bool :=
  match column, param with
  | some a, some b => decide (a = b)
  | _, _ => false

/-- Value of the SQL expression `a = b` on integers: NULL when a side is NULL,
otherwise 1 for equal sides and 0 for different ones. -/
def sqlEq (a b : Key) : Key :=
  match a, b with
  | some x, some y => some (if x = y then 1 else 0)
  | _, _ => none

/-- Value of the `publisher_id` property of a JSON body once the driver has
written it in place of a `?`.  The handlers pass the property on as it is, and
the driver writes a scalar as that scalar but an object as the list of its
properties, each as `column = value`:

* `scalar k`: a number, string, boolean or null, read as the key `k`;
* `idObject k`: an object with the single property `id`, as in
  `{"id": 1}`, written as the text `id = k` with `id` a column name.

An object with several properties, or with a property that is not a column of
the table, gives a statement the storage refuses: a failing statement.  An
object over a text column (such as `name`) compares texts and is not
represented. -/
inductive Param where
  | scalar (k : Key)
  | idObject (k : Key)
deriving DecidableEq, Repr

/-- Truth of `WHERE id = ?` on a row whose `id` column holds `id`.  With an
object bound, the text is `id = id = k`, read as `(id = id) = k`. -/
def whereId (id : Int) (param : Param) : Bool :=
  match param with
  | .scalar k => keyEq (some id) k
  | .idObject k => keyEq (sqlEq (some id) (some id)) k

/-- Value stored by `publisher_id = ?` of the `UPDATE` in a row whose `id`
column holds `id`.  With an object bound, the text is `publisher_id = id = k`:
the column receives the value of the comparison `id = k`. -/
def setValue (id : Int) (param : Param) : Key :=
  match param with
  | .scalar k => k
  | .idObject k => sqlEq (some id) k

/-- Value stored for `publisher_id` by the `INSERT`.  With an object bound,
the value expression is `id = k`, in which the generated column `id` reads as
0 because the storage generates it after the other values. -/
def insertValue (param : Param) : Key :=
  match param with
  | .scalar k => k
  | .idObject k => sqlEq (some 0) k

/-! ## Dates as text -/

/-- Character of a decimal digit. -/
def digitChar (n : Nat) : Char := Char.ofNat (48 + n)

/-- Decimal digit of a character, if it is one of `0` .. `9`. -/
def digitVal (c : Char) : Option Nat :=
  if 48 ≤ c.toNat ∧ c.toNat ≤ 57 then some (c.toNat - 48) else none

/-- SQL `DATE_FORMAT(d, '%Y-%m-%d')`: four digits of year, two of month, two
of day, separated by hyphens. -/
def DATE_FORMAT (d : Date) : String :=
  String.mk
    [digitChar (d.year / 1000 % 10), digitChar (d.year / 100 % 10),
     digitChar (d.year / 10 % 10), digitChar (d.year % 10), '-',
     digitChar (d.month / 10 % 10), digitChar (d.month % 10), '-',
     digitChar (d.day / 10 % 10), digitChar (d.day % 10)]

/-- Gregorian leap years. -/
def isLeapYear (y : Nat) : Bool :=
  y % 4 == 0 && (y % 100 != 0 || y % 400 == 0)

/-- Number of days of a month. -/
def daysInMonth (y m : Nat) : Nat :=
  if m = 2 then (if isLeapYear y then 29 else 28)
  else if m = 4 ∨ m = 6 ∨ m = 9 ∨ m = 11 then 30
  else 31

/-- A calendar date inside the range a DATE column supports
(`1000-01-01` to `9999-12-31`). -/
def validDate (d : Date) : Bool :=
  decide (1000 ≤ d.year) && decide (d.year ≤ 9999) &&
  decide (1 ≤ d.month) && decide (d.month ≤ 12) &&
  decide (1 ≤ d.day) && decide (d.day ≤ daysInMonth d.year d.month)

/-- Reading of a `YYYY-MM-DD` text as a date: exactly ten characters, digits
and two hyphens, naming a valid calendar date. -/
def parseYMD (text : String) : Option Date :=
  match text.data with
  | [y1, y2, y3, y4, h1, m1, m2, h2, d1, d2] =>
    match digitVal y1, digitVal y2, digitVal y3, digitVal y4,
          digitVal m1, digitVal m2, digitVal d1, digitVal d2 with
    | some a, some b, some c, some d, some e, some f, some g, some h =>
      let r : Date := ⟨1000 * a + 100 * b + 10 * c + d, 10 * e + f, 10 * g + h⟩
      if h1 = '-' ∧ h2 = '-' ∧ validDate r = true then some r else none
    | _, _, _, _, _, _, _, _ => none
  | _ => none

/-- Modelled from the spec: the conversion of the bound text to a DATE value
is done by the storage and is not in the source.  A `YYYY-MM-DD` text is
stored as the date it names (spec: "stored and returned as `YYYY-MM-DD`
text"); what the storage makes of any other text it accepts is the parameter
`lenient`. -/
def toDate (lenient : String → Date) (text : String) : Date :=
  match parseYMD text with
  | some d => d
  | none => lenient text

/-! ## Request and response shapes -/

/-- Body of `POST /books` and `PUT /books/:id`, destructured as
`{ publisher_id, name, date }`; `name` and `date` are the texts the storage
receives. -/
structure BookBody where
  publisher_id : Param
  name : String
  date : String
deriving DecidableEq, Repr

/-- Body of `POST /publishers`, destructured as `{ name, address, contact }`. -/
structure PublisherBody where
  name : String
  address : String
  contact : String
deriving DecidableEq, Repr

/-- Row of the two book queries: `id`, `name`, `date` (formatted), `publisher`
(the joined publisher name, NULL when the left join found none) and
`publisher_id`. -/
structure BookRow where
  id : Int
  name : String
  date : String
  publisher : Option String
  publisher_id : Key
deriving DecidableEq, Repr

/-- Object `{ id, publisher_id, name, date }` echoed by the two book writes;
its fields are request values, not values read back from storage. -/
structure BookEcho where
  id : Key
  publisher_id : Param
  name : String
  date : String
deriving DecidableEq, Repr

/-- JSON bodies sent by the handlers. -/
inductive Body where
  | error (error : String)
  | message (message : String)
  | bookRows (data : List BookRow)
  | bookRow (row : BookRow)
  | bookCreated (message : String) (id : Int) (book : BookEcho)
  | bookUpdated (message : String) (book : BookEcho)
  | publisherRows (data : List Publisher)
  | publisherCreated (message : String) (id : Int) (publisher : Publisher)
deriving DecidableEq, Repr

/-- One `res.status(..).json(..)`; `res.json(..)` alone has status 200. -/
structure Response where
  status : Nat
  body : Body
deriving DecidableEq, Repr

/-- The SQL statements of the source, one per statement text. -/
inductive Stmt where
  | selectBooksLeftJoin
  | selectBookJoinById
  | selectPublisherById
  | insertBook
  | updateBook
  | deleteBook
  | selectAllPublishers
  | insertPublisher
  | selectBookByPublisher
  | deletePublisher
deriving DecidableEq, Repr

/-- Second argument of a console line. -/
inductive LogArg where
  | none
  | err (e : DbError)
  | req (id : Key) (body : BookBody)
deriving DecidableEq, Repr

/-- What a handler does besides changing storage, in order: statements handed
to `db.query` (with the error the statement failed with, if it failed),
console lines, and responses sent. -/
inductive Effect where
  | query (stmt : Stmt) (err : Option DbError)
  | log (label : String) (arg : LogArg)
  | send (res : Response)
deriving DecidableEq, Repr

/-- Outcome of running a handler. -/
structure Result where
  trace : List Effect
  state : Storage
deriving DecidableEq, Repr

/-- Failure of the statements a handler issues: `first` for the first
statement, `second` for the statement issued from the first one's callback.
`some e` means the statement fails with error value `e`. -/
structure Faults where
  first : Option DbError
  second : Option DbError
deriving DecidableEq, Repr

/-- No statement fails. -/
def noFaults : Faults := ⟨none, none⟩

/-- Responses sent during a run. -/
def sent (r : Result) : List Response :=
  r.trace.filterMap fun
    | .send res => some res
    | _ => none

/-- Statements issued during a run. -/
def issued (r : Result) : List Stmt :=
  r.trace.filterMap fun
    | .query stmt _ => some stmt
    | _ => none

/-! ## SQL statements

Each definition is one statement text of the source, run on a storage state.
Reads return the result rows; writes return the new state together with
`insertId` or `affectedRows`.  The connection is opened with the driver's
default flags, under which `affectedRows` of an `UPDATE` counts the rows
matched by its `WHERE`. -/

/-- Projection shared by the two book queries: `book.id, book.name,
DATE_FORMAT(book.date, '%Y-%m-%d') as date, publisher.name AS publisher,
book.publisher_id`. -/
def bookRow (b : Book) (publisher : Option String) : BookRow :=
  ⟨b.id, b.name, DATE_FORMAT b.date, publisher, b.publisher_id⟩

/-- Publisher rows satisfying `book.publisher_id = publisher.id` for a book. -/
def joined (s : Storage) (b : Book) : List Publisher :=
  s.publisher.filter fun p => keyEq b.publisher_id (some p.id)

/-- The statement of `GET /books`: `SELECT .. FROM book LEFT JOIN publisher ON
book.publisher_id = publisher.id`.  A book without a matching publisher row
gives one row whose `publisher` is NULL. -/
def selectBooksLeftJoin (s : Storage) : List BookRow :=
  s.book.flatMap fun b =>
    match joined s b with
    | [] => [bookRow b none]
    | p :: ps => (p :: ps).map fun q => bookRow b (some q.name)

/-- The statement of `GET /books/:id`: `SELECT .. FROM book JOIN publisher ON
book.publisher_id = publisher.id WHERE book.id = ?`. -/
def selectBookJoinById (s : Storage) (id : Key) : List BookRow :=
  ((s.book.flatMap fun b => (joined s b).map fun p => (b, p)).filter
    fun bp => keyEq (some bp.1.id) id).map fun bp => bookRow bp.1 (some bp.2.name)

/-- `SELECT id FROM publisher WHERE id = ?`. -/
def selectPublisherById (s : Storage) (publisher_id : Param) : List Int :=
  (s.publisher.filter fun p => whereId p.id publisher_id).map fun p => p.id

/-- `INSERT INTO book (publisher_id, name, date) VALUES (?, ?, ?)`: the new
row takes the next generated id, returned as `insertId`. -/
def insertBook (lenient : String → Date) (s : Storage) (publisher_id : Param)
    (name date : String) : Storage × Int :=
  ({ s with
      book := s.book ++
        [⟨s.bookAuto, name, toDate lenient date, insertValue publisher_id⟩]
      bookAuto := s.bookAuto + 1 },
   s.bookAuto)

/-- `UPDATE book SET publisher_id = ?, name = ?, date = ? WHERE id = ?`,
with its `affectedRows`. -/
def updateBook (lenient : String → Date) (s : Storage) (publisher_id : Param)
    (name date : String) (id : Key) : Storage × Nat :=
  ({ s with
      book := s.book.map fun b =>
        if keyEq (some b.id) id then
          { b with
            publisher_id := setValue b.id publisher_id
            name := name
            date := toDate lenient date }
        else b },
   (s.book.filter fun b => keyEq (some b.id) id).length)

/-- `DELETE FROM book WHERE id = ?`, with its `affectedRows`. -/
def deleteBook (s : Storage) (id : Key) : Storage × Nat :=
  ({ s with book := s.book.filter fun b => !keyEq (some b.id) id },
   (s.book.filter fun b => keyEq (some b.id) id).length)

/-- `SELECT * FROM publisher`. -/
def selectAllPublishers (s : Storage) : List Publisher := s.publisher

/-- `INSERT INTO publisher (name, address, contact) VALUES (?, ?, ?)`: the new
row takes the next generated id, returned as `insertId`. -/
def insertPublisher (s : Storage) (name address contact : String) : Storage × Int :=
  ({ s with
      publisher := s.publisher ++ [⟨s.publisherAuto, name, address, contact⟩]
      publisherAuto := s.publisherAuto + 1 },
   s.publisherAuto)

/-- `SELECT id FROM book WHERE publisher_id = ?`. -/
def selectBookByPublisher (s : Storage) (id : Key) : List Int :=
  (s.book.filter fun b => keyEq b.publisher_id id).map fun b => b.id

/-- `DELETE FROM publisher WHERE id = ?`, with its `affectedRows`. -/
def deletePublisher (s : Storage) (id : Key) : Storage × Nat :=
  ({ s with publisher := s.publisher.filter fun p => !keyEq (some p.id) id },
   (s.publisher.filter fun p => keyEq (some p.id) id).length)

/-! ## Route handlers -/

/-- Handler of `app.get('/books')`. -/
def getBooks (fl : Faults) (s : Storage) : Result :=
  match fl.first with
  | some err =>
    ⟨[.query .selectBooksLeftJoin (some err),
      .send ⟨500, .error "Failed to fetch books"⟩], s⟩
  | none =>
    ⟨[.query .selectBooksLeftJoin none,
      .send ⟨200, .bookRows (selectBooksLeftJoin s)⟩], s⟩

/-- Handler of `app.get('/books/:id')`. -/
def getBooksId (id : Key) (fl : Faults) (s : Storage) : Result :=
  match fl.first with
  | some err =>
    ⟨[.query .selectBookJoinById (some err),
      .log "Error fetching book:" (.err err),
      .send ⟨500, .error "Failed to fetch book"⟩], s⟩
  | none =>
    match selectBookJoinById s id with
    | [] =>
      ⟨[.query .selectBookJoinById none,
        .send ⟨404, .error "Book not found"⟩], s⟩
    | row :: _ =>
      ⟨[.query .selectBookJoinById none,
        .send ⟨200, .bookRow row⟩], s⟩

/-- Handler of `app.post('/books')`. -/
def postBooks (lenient : String → Date) (body : BookBody) (fl : Faults)
    (s : Storage) : Result :=
  match fl.first with
  | some err =>
    ⟨[.query .selectPublisherById (some err),
      .send ⟨500, .error "Database error"⟩], s⟩
  | none =>
    if (selectPublisherById s body.publisher_id).length = 0 then
      ⟨[.query .selectPublisherById none,
        .send ⟨400, .error "Publisher does not exist"⟩], s⟩
    else
      match fl.second with
      | some err =>
        ⟨[.query .selectPublisherById none,
          .query .insertBook (some err),
          .log "Error inserting book:" (.err err),
          .send ⟨500, .error "Failed to create book"⟩], s⟩
      | none =>
        let result := insertBook lenient s body.publisher_id body.name body.date
        ⟨[.query .selectPublisherById none,
          .query .insertBook none,
          .send ⟨201, .bookCreated "Book created" result.2
            ⟨some result.2, body.publisher_id, body.name, body.date⟩⟩], result.1⟩

/-- Handler of `app.put('/books/:id')`. -/
def putBooksId (lenient : String → Date) (id : Key) (body : BookBody) (fl : Faults)
    (s : Storage) : Result :=
  let logs : List Effect :=
    [.log "hittign the put api" .none, .log "this si req" (.req id body)]
  match fl.first with
  | some err =>
    ⟨logs ++ [.query .selectPublisherById (some err),
      .send ⟨500, .error "Database error"⟩], s⟩
  | none =>
    if (selectPublisherById s body.publisher_id).length = 0 then
      ⟨logs ++ [.query .selectPublisherById none,
        .send ⟨400, .error "Publisher does not exist"⟩], s⟩
    else
      match fl.second with
      | some err =>
        ⟨logs ++ [.query .selectPublisherById none,
          .query .updateBook (some err),
          .log "Error updating book:" (.err err),
          .send ⟨500, .error "Failed to update book"⟩], s⟩
      | none =>
        let result := updateBook lenient s body.publisher_id body.name body.date id
        if result.2 = 0 then
          ⟨logs ++ [.query .selectPublisherById none,
            .query .updateBook none,
            .send ⟨404, .error "Book not found"⟩], result.1⟩
        else
          ⟨logs ++ [.query .selectPublisherById none,
            .query .updateBook none,
            .send ⟨200, .bookUpdated "Book updated"
              ⟨id, body.publisher_id, body.name, body.date⟩⟩], result.1⟩

/-- Handler of `app.delete('/books/:id')`. -/
def deleteBooksId (id : Key) (fl : Faults) (s : Storage) : Result :=
  match fl.first with
  | some err =>
    ⟨[.query .deleteBook (some err),
      .log "Error deleting book:" (.err err),
      .send ⟨500, .error "Failed to delete book"⟩], s⟩
  | none =>
    let result := deleteBook s id
    if result.2 = 0 then
      ⟨[.query .deleteBook none,
        .send ⟨404, .error "Book not found"⟩], result.1⟩
    else
      ⟨[.query .deleteBook none,
        .send ⟨200, .message "Book deleted"⟩], result.1⟩

/-- Handler of `app.get('/publishers')`. -/
def getPublishers (fl : Faults) (s : Storage) : Result :=
  match fl.first with
  | some err =>
    ⟨[.query .selectAllPublishers (some err),
      .send ⟨500, .error "Failed to fetch publishers"⟩], s⟩
  | none =>
    ⟨[.query .selectAllPublishers none,
      .send ⟨200, .publisherRows (selectAllPublishers s)⟩], s⟩

/-- Handler of `app.post('/publishers')`. -/
def postPublishers (body : PublisherBody) (fl : Faults) (s : Storage) : Result :=
  match fl.first with
  | some err =>
    ⟨[.query .insertPublisher (some err),
      .log "Error inserting publisher:" (.err err),
      .send ⟨500, .error "Failed to create publisher"⟩], s⟩
  | none =>
    let result := insertPublisher s body.name body.address body.contact
    ⟨[.query .insertPublisher none,
      .send ⟨201, .publisherCreated "Publisher created" result.2
        ⟨result.2, body.name, body.address, body.contact⟩⟩], result.1⟩

/-- Handler of `app.delete('/publishers/:id')`. -/
def deletePublishersId (id : Key) (fl : Faults) (s : Storage) : Result :=
  match fl.first with
  | some err =>
    ⟨[.query .selectBookByPublisher (some err),
      .send ⟨500, .error "Database error"⟩], s⟩
  | none =>
    if (selectBookByPublisher s id).length > 0 then
      ⟨[.query .selectBookByPublisher none,
        .send ⟨400, .error "Cannot delete publisher - books are associated with it"⟩], s⟩
    else
      match fl.second with
      | some err =>
        ⟨[.query .selectBookByPublisher none,
          .query .deletePublisher (some err),
          .log "Error deleting publisher:" (.err err),
          .send ⟨500, .error "Failed to delete publisher"⟩], s⟩
      | none =>
        let result := deletePublisher s id
        if result.2 = 0 then
          ⟨[.query .selectBookByPublisher none,
            .query .deletePublisher none,
            .send ⟨404, .error "Publisher not found"⟩], result.1⟩
        else
          ⟨[.query .selectBookByPublisher none,
            .query .deletePublisher none,
            .send ⟨200, .message "Publisher deleted"⟩], result.1⟩

/-- A request to one of the eight routes, with its path id and body. -/
inductive Request where
  | getBooks
  | getBooksId (id : Key)
  | postBooks (body : BookBody)
  | putBooksId (id : Key) (body : BookBody)
  | deleteBooksId (id : Key)
  | getPublishers
  | postPublishers (body : PublisherBody)
  | deletePublishersId (id : Key)
deriving DecidableEq, Repr

/-- Route dispatch of `app`: the handler registered for the request. -/
def handle (lenient : String → Date) (req : Request) (fl : Faults) (s : Storage) : Result :=
  match req with
  | .getBooks => getBooks fl s
  | .getBooksId id => getBooksId id fl s
  | .postBooks body => postBooks lenient body fl s
  | .putBooksId id body => putBooksId lenient id body fl s
  | .deleteBooksId id => deleteBooksId id fl s
  | .getPublishers => getPublishers fl s
  | .postPublishers body => postPublishers body fl s
  | .deletePublishersId id => deletePublishersId id fl s

/-- The `error` string a handler sends when the given statement fails. -/
def failureMessage : Stmt → String
  | .selectBooksLeftJoin => "Failed to fetch books"
  | .selectBookJoinById => "Failed to fetch book"
  | .selectPublisherById => "Database error"
  | .insertBook => "Failed to create book"
  | .updateBook => "Failed to update book"
  | .deleteBook => "Failed to delete book"
  | .selectAllPublishers => "Failed to fetch publishers"
  | .insertPublisher => "Failed to create publisher"
  | .selectBookByPublisher => "Database error"
  | .deletePublisher => "Failed to delete publisher"

/-- Two fault assignments make the same statements fail; they may differ in
the error values only. -/
def sameFailures (fl fl' : Faults) : Prop :=
  fl.first.isSome = fl'.first.isSome ∧ fl.second.isSome = fl'.second.isSome

/-- Referential integrity: every book's `publisher_id` is the id of a
publisher row. -/
def refIntegrity (s : Storage) : Prop :=
  ∀ b ∈ s.book, ∃ p ∈ s.publisher, b.publisher_id = some p.id

/-- The request carries no `publisher_id`, or carries a scalar one. -/
def scalarBody : Request → Bool
  | .postBooks ⟨.idObject _, _, _⟩ => false
  | .putBooksId _ ⟨.idObject _, _, _⟩ => false
  | _ => true

/-! ## Sample storage states

The storage states of the scenario of the spec, used to evaluate the handlers
on concrete requests. -/

/-- Storage after publisher "Acme" has been created with generated id 7: no
book yet, the next book id is 1. -/
def acme : Storage := ⟨[], [⟨7, "Acme", "1 Rd", "a@a.com"⟩], 1, 8⟩

/-- Storage of the scenario after book "Title" has been created with generated
id 1: publisher 7 and one book that references it. -/
def acmeWithBook : Storage :=
  ⟨[⟨1, "Title", ⟨2024, 1, 1⟩, some 7⟩], [⟨7, "Acme", "1 Rd", "a@a.com"⟩], 2, 8⟩

/-- Storage with book 1 of publisher 7 and the two publishers 7 and 8; no
publisher has id 0 or 1. -/
def acmeAndOther : Storage :=
  ⟨[⟨1, "Title", ⟨2024, 1, 1⟩, some 7⟩],
   [⟨7, "Acme", "1 Rd", "a@a.com"⟩, ⟨8, "Other", "2 Rd", "o@o.com"⟩], 2, 9⟩

/-- A storage that stores the zero date for every text that is not a
`YYYY-MM-DD` date. -/
def noLenient : String → Date := fun _ => ⟨0, 0, 0⟩

/-! ## Lemmas on keys, dates and statements -/

theorem keyEq_iff (a b : Key) : keyEq a b = true ↔ ∃ n, a = some n ∧ b = some n := by
  cases a <;> cases b <;> simp [keyEq, eq_comm]

theorem keyEq_some_left (n : Int) (k : Key) : keyEq (some n) k = true ↔ k = some n := by
  cases k with
  | none => simp [keyEq]
  | some m => simp only [keyEq, decide_eq_true_eq, Option.some.injEq]; exact eq_comm

theorem keyEq_some_right (k : Key) (n : Int) : keyEq k (some n) = true ↔ k = some n := by
  cases k <;> simp [keyEq]

theorem digitChar_digitVal {c : Char} {n : Nat} (h : digitVal c = some n) :
    n < 10 ∧ digitChar n = c := by
  unfold digitVal at h
  split at h
  · rename_i hc
    simp only [Option.some.injEq] at h
    subst h
    refine ⟨by omega, ?_⟩
    unfold digitChar
    have : 48 + (c.toNat - 48) = c.toNat := by omega
    rw [this]
    exact Char.ofNat_toNat c
  · simp at h

theorem DATE_FORMAT_parseYMD {text : String} {d : Date} (h : parseYMD text = some d) :
    DATE_FORMAT d = text := by
  unfold parseYMD at h
  split at h
  · rename_i y1 y2 y3 y4 h1 m1 m2 h2 d1 d2 hdata
    split at h
    · rename_i a b c e f g i j ha hb hc he hf hg hi hj
      obtain ⟨ha1, ha2⟩ := digitChar_digitVal ha
      obtain ⟨hb1, hb2⟩ := digitChar_digitVal hb
      obtain ⟨hc1, hc2⟩ := digitChar_digitVal hc
      obtain ⟨he1, he2⟩ := digitChar_digitVal he
      obtain ⟨hf1, hf2⟩ := digitChar_digitVal hf
      obtain ⟨hg1, hg2⟩ := digitChar_digitVal hg
      obtain ⟨hi1, hi2⟩ := digitChar_digitVal hi
      obtain ⟨hj1, hj2⟩ := digitChar_digitVal hj
      simp only at h
      split at h
      · rename_i hv
        simp only [Option.some.injEq] at h
        subst h
        obtain ⟨hh1, hh2, -⟩ := hv
        subst hh1 hh2
        have e1 : (1000 * a + 100 * b + 10 * c + e) / 1000 % 10 = a := by omega
        have e2 : (1000 * a + 100 * b + 10 * c + e) / 100 % 10 = b := by omega
        have e3 : (1000 * a + 100 * b + 10 * c + e) / 10 % 10 = c := by omega
        have e4 : (1000 * a + 100 * b + 10 * c + e) % 10 = e := by omega
        have e5 : (10 * f + g) / 10 % 10 = f := by omega
        have e6 : (10 * f + g) % 10 = g := by omega
        have e7 : (10 * i + j) / 10 % 10 = i := by omega
        have e8 : (10 * i + j) % 10 = j := by omega
        unfold DATE_FORMAT
        simp only [e1, e2, e3, e4, e5, e6, e7, e8, ha2, hb2, hc2, he2, hf2, hg2, hi2, hj2]
        rw [← hdata]
      · simp at h
    · simp at h
  · simp at h

theorem whereId_scalar (id : Int) (k : Key) :
    whereId id (.scalar k) = true ↔ k = some id := by
  simp only [whereId, keyEq_some_left]

theorem selectPublisherById_length (s : Storage) (param : Param) :
    (selectPublisherById s param).length = 0 ↔
      ∀ p ∈ s.publisher, whereId p.id param = false := by
  simp [selectPublisherById, List.filter_eq_nil_iff]

theorem selectBookByPublisher_length (s : Storage) (k : Key) :
    (selectBookByPublisher s k).length = 0 ↔ ∀ b ∈ s.book, keyEq b.publisher_id k = false := by
  simp [selectBookByPublisher, List.filter_eq_nil_iff]

theorem matchedBooks_length (s : Storage) (id : Key) :
    (s.book.filter fun b => keyEq (some b.id) id).length = 0 ↔ ∀ b ∈ s.book, id ≠ some b.id := by
  simp [List.filter_eq_nil_iff, keyEq_some_left]

theorem matchedPublishers_length (s : Storage) (id : Key) :
    (s.publisher.filter fun p => keyEq (some p.id) id).length = 0 ↔
      ∀ p ∈ s.publisher, id ≠ some p.id := by
  simp [List.filter_eq_nil_iff, keyEq_some_left]

theorem updateBook_unmatched (lenient : String → Date) (s : Storage) (k : Param)
    (name date : String) (id : Key) (hid : ∀ b ∈ s.book, id ≠ some b.id) :
    (updateBook lenient s k name date id).1 = s := by
  have hmap : (s.book.map fun b =>
      if keyEq (some b.id) id then
        ({ b with
            publisher_id := setValue b.id k
            name := name
            date := toDate lenient date } : Book)
      else b) = s.book := by
    conv_rhs => rw [← List.map_id s.book]
    apply List.map_congr_left
    intro b hb
    have : keyEq (some b.id) id = false := by
      cases hk : keyEq (some b.id) id with
      | false => rfl
      | true => exact absurd ((keyEq_some_left _ _).1 hk) (hid b hb)
    simp [this]
  simp only [updateBook, hmap]

/-- C1 (counterexample): on a storage with no book and the single publisher 7,
`PUT /books/1` with a body naming publisher 9 is answered 400, not 404. -/
theorem put_unknown_book_unknown_publisher_400 :
    acme.book = [] ∧
    sent (putBooksId noLenient (some 1) ⟨.scalar (some 9), "Title", "2024-01-01"⟩
        noFaults acme)
      = [⟨400, .error "Publisher does not exist"⟩] := by
  constructor
  · rfl
  · decide

/-- C1 (amended): for every storage state, every path id that matches no book
row and every body, when no statement fails `PUT /books/:id` answers 404
"Book not found" if the body's `publisher_id` matches a publisher row and 400
"Publisher does not exist" if it matches none; storage is left as it was.
A `publisher_id` matches a row when `id = ?` of the existence query holds on
it (`whereId`); for a scalar that is equality with the row's id
(`whereId_scalar`). -/
theorem put_unknown_book (lenient : String → Date) (s : Storage) (id : Key)
    (body : BookBody) (hid : ∀ b ∈ s.book, id ≠ some b.id) :
    ((∃ p ∈ s.publisher, whereId p.id body.publisher_id = true) →
      sent (putBooksId lenient id body noFaults s) = [⟨404, .error "Book not found"⟩]) ∧
    ((∀ p ∈ s.publisher, whereId p.id body.publisher_id = false) →
      sent (putBooksId lenient id body noFaults s)
        = [⟨400, .error "Publisher does not exist"⟩]) ∧
    (putBooksId lenient id body noFaults s).state = s := by
  have hzero : (updateBook lenient s body.publisher_id body.name body.date id).2 = 0 :=
    (matchedBooks_length s id).2 hid
  have hstate := updateBook_unmatched lenient s body.publisher_id body.name body.date id hid
  refine ⟨?_, ?_, ?_⟩
  · intro hp
    have hne : ¬ (selectPublisherById s body.publisher_id).length = 0 := by
      rw [selectPublisherById_length]
      obtain ⟨p, hp, hpid⟩ := hp
      intro hall
      rw [hall p hp] at hpid
      exact Bool.noConfusion hpid
    simp [putBooksId, noFaults, hne, hzero, sent]
  · intro hp
    have hz : (selectPublisherById s body.publisher_id).length = 0 :=
      (selectPublisherById_length s _).2 hp
    simp [putBooksId, noFaults, hz, sent]
  · by_cases hz : (selectPublisherById s body.publisher_id).length = 0
    · simp [putBooksId, noFaults, hz]
    · simp [putBooksId, noFaults, hz, hzero, hstate]

/-- C1 (witness): `PUT /books/1` naming the existing publisher 7, on a storage
with no book. -/
theorem put_unknown_book_witness :
    sent (putBooksId noLenient (some 1) ⟨.scalar (some 7), "Title", "2024-01-01"⟩
        noFaults acme)
      = [⟨404, .error "Book not found"⟩] ∧
    (putBooksId noLenient (some 1) ⟨.scalar (some 7), "Title", "2024-01-01"⟩
        noFaults acme).state = acme :=
  have h := put_unknown_book noLenient acme (some 1)
    ⟨.scalar (some 7), "Title", "2024-01-01"⟩ (by intro b hb; simp [acme] at hb)
  ⟨h.1 ⟨⟨7, "Acme", "1 Rd", "a@a.com"⟩, by simp [acme], by decide⟩, h.2.2⟩

/-- C2: for every storage state and every `POST /books` body whose
`publisher_id` matches no publisher row, when the existence query does not
fail the handler sends the single response 400 "Publisher does not exist",
issues no INSERT and leaves storage as it was, so the book table and the list
returned by `GET /books` (hence its length) are unchanged.  A `publisher_id`
matches a row when `id = ?` of the existence query holds on it (`whereId`);
for a scalar that is equality with the row's id (`whereId_scalar`). -/
theorem post_books_unknown_publisher (lenient : String → Date) (s : Storage)
    (body : BookBody) (fl : Faults) (hfirst : fl.first = none)
    (hpub : ∀ p ∈ s.publisher, whereId p.id body.publisher_id = false) :
    sent (postBooks lenient body fl s) = [⟨400, .error "Publisher does not exist"⟩] ∧
    Stmt.insertBook ∉ issued (postBooks lenient body fl s) ∧
    (postBooks lenient body fl s).state = s ∧
    (postBooks lenient body fl s).state.book = s.book ∧
    selectBooksLeftJoin (postBooks lenient body fl s).state = selectBooksLeftJoin s ∧
    (selectBooksLeftJoin (postBooks lenient body fl s).state).length
      = (selectBooksLeftJoin s).length := by
  have hz : (selectPublisherById s body.publisher_id).length = 0 :=
    (selectPublisherById_length s _).2 hpub
  have hrun : postBooks lenient body fl s =
      ⟨[.query .selectPublisherById none,
        .send ⟨400, .error "Publisher does not exist"⟩], s⟩ := by
    simp [postBooks, hfirst, hz]
  rw [hrun]
  simp [sent, issued]

/-- C2 (witness): `POST /books` naming publisher 9 on a storage whose only
publisher is 7. -/
theorem post_books_unknown_publisher_witness :
    sent (postBooks noLenient ⟨.scalar (some 9), "Title", "2024-01-01"⟩ noFaults acme)
      = [⟨400, .error "Publisher does not exist"⟩] ∧
    (postBooks noLenient ⟨.scalar (some 9), "Title", "2024-01-01"⟩ noFaults acme).state
      = acme :=
  have h := post_books_unknown_publisher noLenient acme
    ⟨.scalar (some 9), "Title", "2024-01-01"⟩ noFaults rfl (by decide)
  ⟨h.1, h.2.2.1⟩

/-- C4: for every storage state and every path id that at least one book row
has as its `publisher_id`, when the reference query does not fail
`DELETE /publishers/:id` sends the single response 400 "Cannot delete
publisher - books are associated with it", issues no DELETE and leaves storage
as it was; a following `GET /publishers` returns the publisher table as it
was before, so every publisher of the table is still listed. -/
theorem delete_publisher_referenced (s : Storage) (id : Key) (fl : Faults)
    (hfirst : fl.first = none) (href : ∃ b ∈ s.book, keyEq b.publisher_id id = true) :
    sent (deletePublishersId id fl s)
      = [⟨400, .error "Cannot delete publisher - books are associated with it"⟩] ∧
    Stmt.deletePublisher ∉ issued (deletePublishersId id fl s) ∧
    (deletePublishersId id fl s).state = s ∧
    (deletePublishersId id fl s).state.publisher = s.publisher ∧
    sent (getPublishers noFaults (deletePublishersId id fl s).state)
      = [⟨200, .publisherRows s.publisher⟩] ∧
    (∀ p ∈ s.publisher, p ∈ selectAllPublishers (deletePublishersId id fl s).state) := by
  have hpos : (selectBookByPublisher s id).length > 0 := by
    apply Nat.pos_of_ne_zero
    rw [Ne, selectBookByPublisher_length]
    obtain ⟨b, hb, hk⟩ := href
    intro hall
    rw [hall b hb] at hk
    exact Bool.noConfusion hk
  have hrun : deletePublishersId id fl s =
      ⟨[.query .selectBookByPublisher none,
        .send ⟨400, .error "Cannot delete publisher - books are associated with it"⟩], s⟩ := by
    simp [deletePublishersId, hfirst, hpos]
  rw [hrun]
  simp [sent, issued, getPublishers, noFaults, selectAllPublishers]

/-- C4 (witness): `DELETE /publishers/7` while book 1 references publisher 7. -/
theorem delete_publisher_referenced_witness :
    sent (deletePublishersId (some 7) noFaults acmeWithBook)
      = [⟨400, .error "Cannot delete publisher - books are associated with it"⟩] ∧
    (deletePublishersId (some 7) noFaults acmeWithBook).state = acmeWithBook :=
  have h := delete_publisher_referenced acmeWithBook (some 7) noFaults rfl
    ⟨⟨1, "Title", ⟨2024, 1, 1⟩, some 7⟩, by simp [acmeWithBook], by decide⟩
  ⟨h.1, h.2.2.1⟩

/-- C5 (counterexample): on a storage with no book and the single publisher 7,
`DELETE /publishers/1` is answered 404, not 200, although no book references
publisher 1. -/
theorem delete_unknown_publisher_404 :
    acme.book = [] ∧
    sent (deletePublishersId (some 1) noFaults acme)
      = [⟨404, .error "Publisher not found"⟩] := by
  constructor
  · rfl
  · decide

/-- C5 (amended): for every storage state and every path id that no book row
has as its `publisher_id`, when no statement fails `DELETE /publishers/:id`
answers 200 "Publisher deleted" if a publisher row has that id and 404
"Publisher not found" if none has; in both cases the other tables are
untouched, the publisher table keeps exactly the rows with another id, and a
following `GET /publishers` returns a list with no publisher of that id. -/
theorem delete_publisher_unreferenced (s : Storage) (id : Key)
    (href : ∀ b ∈ s.book, keyEq b.publisher_id id = false) :
    ((∃ p ∈ s.publisher, id = some p.id) →
      sent (deletePublishersId id noFaults s) = [⟨200, .message "Publisher deleted"⟩]) ∧
    ((∀ p ∈ s.publisher, id ≠ some p.id) →
      sent (deletePublishersId id noFaults s) = [⟨404, .error "Publisher not found"⟩]) ∧
    (deletePublishersId id noFaults s).state
      = { s with publisher := s.publisher.filter fun p => decide (id ≠ some p.id) } ∧
    sent (getPublishers noFaults (deletePublishersId id noFaults s).state)
      = [⟨200, .publisherRows (s.publisher.filter fun p => decide (id ≠ some p.id))⟩] ∧
    (∀ p ∈ selectAllPublishers (deletePublishersId id noFaults s).state, id ≠ some p.id) := by
  have hz : ¬ (selectBookByPublisher s id).length > 0 := by
    rw [Nat.not_lt, Nat.le_zero, selectBookByPublisher_length]
    exact href
  have hfilter : (s.publisher.filter fun p => !keyEq (some p.id) id)
      = s.publisher.filter fun p => decide (id ≠ some p.id) := by
    apply List.filter_congr
    intro p _
    cases hk : keyEq (some p.id) id with
    | false =>
      have : id ≠ some p.id := fun h => by
        rw [(keyEq_some_left _ _).2 h] at hk
        exact Bool.noConfusion hk
      simp [this]
    | true => simp [(keyEq_some_left _ _).1 hk]
  have hstate : (deletePublishersId id noFaults s).state
      = { s with publisher := s.publisher.filter fun p => decide (id ≠ some p.id) } := by
    by_cases h0 : (deletePublisher s id).2 = 0
    · simp [deletePublishersId, noFaults, hz, h0]
      simp [deletePublisher, hfilter]
    · simp [deletePublishersId, noFaults, hz, h0]
      simp [deletePublisher, hfilter]
  refine ⟨?_, ?_, hstate, ?_, ?_⟩
  · intro hp
    have hne : ¬ (deletePublisher s id).2 = 0 := by
      show ¬ (s.publisher.filter fun p => keyEq (some p.id) id).length = 0
      rw [matchedPublishers_length]
      obtain ⟨p, hp, hpid⟩ := hp
      exact fun hall => hall p hp hpid
    simp [deletePublishersId, noFaults, hz, hne, sent]
  · intro hp
    have h0 : (deletePublisher s id).2 = 0 := (matchedPublishers_length s id).2 hp
    simp [deletePublishersId, noFaults, hz, h0, sent]
  · rw [hstate]
    simp [getPublishers, noFaults, sent, selectAllPublishers]
  · rw [hstate]
    intro p hp
    simp only [selectAllPublishers, List.mem_filter, decide_eq_true_eq] at hp
    exact hp.2

/-- C5 (witness): `DELETE /publishers/7` on a storage with no book. -/
theorem delete_publisher_unreferenced_witness :
    sent (deletePublishersId (some 7) noFaults acme)
      = [⟨200, .message "Publisher deleted"⟩] ∧
    sent (getPublishers noFaults (deletePublishersId (some 7) noFaults acme).state)
      = [⟨200, .publisherRows
          (acme.publisher.filter fun p => decide ((some 7 : Key) ≠ some p.id))⟩] :=
  have h := delete_publisher_unreferenced acme (some 7) (by intro b hb; simp [acme] at hb)
  ⟨h.1 ⟨⟨7, "Acme", "1 Rd", "a@a.com"⟩, by simp [acme], rfl⟩, h.2.2.2.1⟩

theorem deleteBook_state (s : Storage) (id : Key) :
    (deleteBook s id).1 = { s with book := s.book.filter fun b => decide (id ≠ some b.id) } := by
  have hfilter : (s.book.filter fun b => !keyEq (some b.id) id)
      = s.book.filter fun b => decide (id ≠ some b.id) := by
    apply List.filter_congr
    intro b _
    cases hk : keyEq (some b.id) id with
    | false =>
      have : id ≠ some b.id := fun h => by
        rw [(keyEq_some_left _ _).2 h] at hk
        exact Bool.noConfusion hk
      simp [this]
    | true => simp [(keyEq_some_left _ _).1 hk]
  simp only [deleteBook, hfilter]

/-- C8: for every storage state and every path id that matches a book row,
with no storage failure the first `DELETE /books/:id` answers 200 and leaves
storage with exactly the book rows of another id (everything else untouched);
a second `DELETE` with the same id answers 404 and leaves storage equal to the
state after the first. -/
theorem delete_book_twice (s : Storage) (id : Key) (hex : ∃ b ∈ s.book, id = some b.id) :
    sent (deleteBooksId id noFaults s) = [⟨200, .message "Book deleted"⟩] ∧
    (deleteBooksId id noFaults s).state
      = { s with book := s.book.filter fun b => decide (id ≠ some b.id) } ∧
    sent (deleteBooksId id noFaults (deleteBooksId id noFaults s).state)
      = [⟨404, .error "Book not found"⟩] ∧
    (deleteBooksId id noFaults (deleteBooksId id noFaults s).state).state
      = (deleteBooksId id noFaults s).state := by
  have hne : ¬ (deleteBook s id).2 = 0 := by
    show ¬ (s.book.filter fun b => keyEq (some b.id) id).length = 0
    rw [matchedBooks_length]
    obtain ⟨b, hb, hbid⟩ := hex
    exact fun hall => hall b hb hbid
  have hfirst : deleteBooksId id noFaults s =
      ⟨[.query .deleteBook none, .send ⟨200, .message "Book deleted"⟩],
        { s with book := s.book.filter fun b => decide (id ≠ some b.id) }⟩ := by
    simp [deleteBooksId, noFaults, hne, deleteBook_state]
  have hgone : ∀ b ∈ (s.book.filter fun b => decide (id ≠ some b.id)), id ≠ some b.id := by
    intro b hb
    simp only [List.mem_filter, decide_eq_true_eq] at hb
    exact hb.2
  have hzero : (deleteBook
      { s with book := s.book.filter fun b => decide (id ≠ some b.id) } id).2 = 0 :=
    (matchedBooks_length _ id).2 hgone
  have hsame : (deleteBook
      { s with book := s.book.filter fun b => decide (id ≠ some b.id) } id).1
      = { s with book := s.book.filter fun b => decide (id ≠ some b.id) } := by
    rw [deleteBook_state]
    simp [List.filter_filter]
  have hsecond : deleteBooksId id noFaults
      { s with book := s.book.filter fun b => decide (id ≠ some b.id) } =
      ⟨[.query .deleteBook none, .send ⟨404, .error "Book not found"⟩],
        { s with book := s.book.filter fun b => decide (id ≠ some b.id) }⟩ := by
    unfold deleteBooksId
    simp only [noFaults]
    rw [if_pos hzero, hsame]
  rw [hfirst]
  simp only [hsecond]
  simp [sent]

/-- C8 (witness): deleting book 1 twice from the storage that holds it. -/
theorem delete_book_twice_witness :
    sent (deleteBooksId (some 1) noFaults acmeWithBook) = [⟨200, .message "Book deleted"⟩] ∧
    sent (deleteBooksId (some 1) noFaults (deleteBooksId (some 1) noFaults acmeWithBook).state)
      = [⟨404, .error "Book not found"⟩] :=
  have h := delete_book_twice acmeWithBook (some 1)
    ⟨⟨1, "Title", ⟨2024, 1, 1⟩, some 7⟩, by simp [acmeWithBook], rfl⟩
  ⟨h.1, h.2.2.1⟩

theorem mem_selectBookJoinById (s : Storage) (id : Key) (row : BookRow) :
    row ∈ selectBookJoinById s id ↔
      ∃ b ∈ s.book, ∃ p ∈ s.publisher,
        id = some b.id ∧ b.publisher_id = some p.id ∧ row = bookRow b (some p.name) := by
  simp only [selectBookJoinById, joined, List.mem_map, List.mem_filter, List.mem_flatMap,
    keyEq_some_left, keyEq_some_right, Prod.exists]
  constructor
  · rintro ⟨b, p, ⟨⟨b', hb', p', ⟨hp', hk⟩, heq⟩, hid⟩, rfl⟩
    simp only [Prod.mk.injEq] at heq
    obtain ⟨rfl, rfl⟩ := heq
    exact ⟨b', hb', p', hp', hid, hk, rfl⟩
  · rintro ⟨b, hb, p, hp, hid, hk, rfl⟩
    exact ⟨b, p, ⟨⟨b, hb, p, ⟨hp, hk⟩, rfl⟩, hid⟩, rfl⟩

/-- C7: for every storage state and every path id, when the query does not
fail `GET /books/:id` sends the single response 404 "Book not found" exactly
when no book row has that id together with a `publisher_id` that matches a
publisher row; otherwise it sends 200 with the id, name, formatted date and
`publisher_id` of a book row of that id and the name of a publisher row its
`publisher_id` matches.  Storage is not changed. -/
theorem get_book_by_id (s : Storage) (id : Key) (fl : Faults) (hfirst : fl.first = none) :
    (sent (getBooksId id fl s) = [⟨404, .error "Book not found"⟩] ↔
      ¬ ∃ b ∈ s.book, id = some b.id ∧ ∃ p ∈ s.publisher, b.publisher_id = some p.id) ∧
    ((∃ b ∈ s.book, id = some b.id ∧ ∃ p ∈ s.publisher, b.publisher_id = some p.id) →
      ∃ b ∈ s.book, ∃ p ∈ s.publisher, id = some b.id ∧ b.publisher_id = some p.id ∧
        sent (getBooksId id fl s)
          = [⟨200, .bookRow ⟨b.id, b.name, DATE_FORMAT b.date, some p.name, b.publisher_id⟩⟩]) ∧
    (getBooksId id fl s).state = s := by
  cases hsel : selectBookJoinById s id with
  | nil =>
    have hrun : getBooksId id fl s =
        ⟨[.query .selectBookJoinById none, .send ⟨404, .error "Book not found"⟩], s⟩ := by
      simp [getBooksId, hfirst, hsel]
    have hnone : ¬ ∃ b ∈ s.book, id = some b.id ∧
        ∃ p ∈ s.publisher, b.publisher_id = some p.id := by
      rintro ⟨b, hb, hid, p, hp, hk⟩
      have hmem : bookRow b (some p.name) ∈ selectBookJoinById s id :=
        (mem_selectBookJoinById s id _).2 ⟨b, hb, p, hp, hid, hk, rfl⟩
      rw [hsel] at hmem
      exact List.not_mem_nil _ hmem
    rw [hrun]
    refine ⟨?_, ?_, rfl⟩
    · simp only [sent, List.filterMap_cons, List.filterMap_nil, true_iff]
      exact hnone
    · intro h
      exact absurd h hnone
  | cons row rest =>
    have hrun : getBooksId id fl s =
        ⟨[.query .selectBookJoinById none, .send ⟨200, .bookRow row⟩], s⟩ := by
      simp [getBooksId, hfirst, hsel]
    have hmem : row ∈ selectBookJoinById s id := by
      rw [hsel]
      exact List.mem_cons_self _ _
    obtain ⟨b, hb, p, hp, hid, hk, hrow⟩ := (mem_selectBookJoinById s id row).1 hmem
    rw [hrun]
    refine ⟨?_, ?_, rfl⟩
    · constructor
      · intro h
        simp [sent] at h
      · intro h
        exact absurd ⟨b, hb, hid, p, hp, hk⟩ h
    · intro _
      refine ⟨b, hb, p, hp, hid, hk, ?_⟩
      simp [sent, hrow, bookRow]

/-- C7 (witness): `GET /books/1` on the storage that holds book 1 of
publisher 7. -/
theorem get_book_by_id_witness :
    ∃ b ∈ acmeWithBook.book, ∃ p ∈ acmeWithBook.publisher,
      (some 1 : Key) = some b.id ∧ b.publisher_id = some p.id ∧
      sent (getBooksId (some 1) noFaults acmeWithBook)
        = [⟨200, .bookRow ⟨b.id, b.name, DATE_FORMAT b.date, some p.name, b.publisher_id⟩⟩] :=
  (get_book_by_id acmeWithBook (some 1) noFaults rfl).2.1
    ⟨⟨1, "Title", ⟨2024, 1, 1⟩, some 7⟩, by simp [acmeWithBook], rfl,
      ⟨7, "Acme", "1 Rd", "a@a.com"⟩, by simp [acmeWithBook], rfl⟩

theorem joined_of_nodup (l : List Publisher) (k : Key) (h : (l.map fun p => p.id).Nodup) :
    (l.filter fun p => keyEq k (some p.id))
      = (l.find? fun p => keyEq k (some p.id)).toList := by
  induction l with
  | nil => rfl
  | cons p l ih =>
    rw [List.map_cons, List.nodup_cons] at h
    obtain ⟨hp, hl⟩ := h
    rw [List.filter_cons, List.find?_cons]
    cases hk : keyEq k (some p.id) with
    | true =>
      have hnil : (l.filter fun q => keyEq k (some q.id)) = [] := by
        rw [List.filter_eq_nil_iff]
        intro q hq hkq
        rw [keyEq_some_right] at hk hkq
        rw [hk, Option.some.injEq] at hkq
        exact hp (List.mem_map.2 ⟨q, hq, hkq.symm⟩)
      simp [hnil]
    | false =>
      simp [ih hl]

theorem flatMap_single {α β : Type} (l : List α) (f : α → List β) (g : α → β)
    (h : ∀ a, f a = [g a]) : l.flatMap f = l.map g := by
  induction l with
  | nil => rfl
  | cons a l ih => rw [List.flatMap_cons, ih, h a]; rfl

/-- C10: for every storage state whose publisher ids are unique, when the
query does not fail `GET /books` sends the single response 200 with one entry
per book row, in table order: the entry carries the book's id, name,
formatted date and `publisher_id`, and as `publisher` the name of the
publisher row whose id equals `publisher_id`, or NULL when there is none.  So
the list has as many entries as there are books, and is empty when there are
none. -/
theorem get_books_rows (s : Storage) (fl : Faults) (hfirst : fl.first = none)
    (huniq : (s.publisher.map fun p => p.id).Nodup) :
    sent (getBooks fl s)
      = [⟨200, .bookRows (s.book.map fun b =>
          ⟨b.id, b.name, DATE_FORMAT b.date,
            (s.publisher.find? fun p => decide (b.publisher_id = some p.id)).map fun p => p.name,
            b.publisher_id⟩)⟩] ∧
    (selectBooksLeftJoin s).length = s.book.length ∧
    (s.book = [] → sent (getBooks fl s) = [⟨200, .bookRows []⟩]) := by
  have hfind : ∀ b : Book,
      (s.publisher.find? fun p => keyEq b.publisher_id (some p.id))
        = s.publisher.find? fun p => decide (b.publisher_id = some p.id) := by
    intro b
    congr 1
    funext p
    cases hk : keyEq b.publisher_id (some p.id) with
    | true => simp [(keyEq_some_right _ _).1 hk]
    | false =>
      have : b.publisher_id ≠ some p.id := fun h => by
        rw [(keyEq_some_right _ _).2 h] at hk
        exact Bool.noConfusion hk
      simp [this]
  have hrows : selectBooksLeftJoin s = s.book.map fun b =>
      (⟨b.id, b.name, DATE_FORMAT b.date,
        (s.publisher.find? fun p => decide (b.publisher_id = some p.id)).map fun p => p.name,
        b.publisher_id⟩ : BookRow) := by
    unfold selectBooksLeftJoin
    apply flatMap_single
    intro b
    rw [← hfind b]
    unfold joined
    rw [joined_of_nodup s.publisher b.publisher_id huniq]
    cases s.publisher.find? fun p => keyEq b.publisher_id (some p.id) with
    | none => simp [bookRow]
    | some p => simp [bookRow]
  have hrun : getBooks fl s =
      ⟨[.query .selectBooksLeftJoin none, .send ⟨200, .bookRows (selectBooksLeftJoin s)⟩], s⟩ := by
    simp [getBooks, hfirst]
  refine ⟨?_, ?_, ?_⟩
  · rw [hrun, hrows]
    simp [sent]
  · rw [hrows, List.length_map]
  · intro hempty
    rw [hrun, hrows, hempty]
    simp [sent]

/-- C10 (witness): `GET /books` on the storage that holds book 1 of
publisher 7. -/
theorem get_books_rows_witness :
    sent (getBooks noFaults acmeWithBook)
      = [⟨200, .bookRows (acmeWithBook.book.map fun b =>
          ⟨b.id, b.name, DATE_FORMAT b.date,
            (acmeWithBook.publisher.find? fun p =>
              decide (b.publisher_id = some p.id)).map fun p => p.name,
            b.publisher_id⟩)⟩] :=
  (get_books_rows acmeWithBook noFaults rfl (by decide)).1

theorem selectBookJoinById_append_fresh (books : List Book) (pubs : List Publisher)
    (auto : Int) (pa : Int) (new : Book) (id : Int) (hnew : new.id = id)
    (hfresh : ∀ b ∈ books, b.id ≠ id) :
    selectBookJoinById ⟨books ++ [new], pubs, auto, pa⟩ (some id)
      = (pubs.filter fun q => keyEq new.publisher_id (some q.id)).map
          fun q => bookRow new (some q.name) := by
  unfold selectBookJoinById joined
  simp only [List.flatMap_append, List.filter_append, List.map_append, List.flatMap_singleton]
  have h1 : ((books.flatMap fun b =>
      (pubs.filter fun p => keyEq b.publisher_id (some p.id)).map fun p => (b, p)).filter
        fun bp => keyEq (some bp.1.id) (some id)) = [] := by
    rw [List.filter_eq_nil_iff]
    rintro ⟨b, p⟩ hmem hk
    rw [List.mem_flatMap] at hmem
    obtain ⟨b', hb', hin⟩ := hmem
    rw [List.mem_map] at hin
    obtain ⟨p', _, heq⟩ := hin
    simp only [Prod.mk.injEq] at heq
    obtain ⟨rfl, rfl⟩ := heq
    rw [keyEq_some_left, Option.some.injEq] at hk
    exact hfresh b' hb' hk.symm
  have h2 : (((pubs.filter fun p => keyEq new.publisher_id (some p.id)).map
      fun p => (new, p)).filter fun bp => keyEq (some bp.1.id) (some id))
      = (pubs.filter fun p => keyEq new.publisher_id (some p.id)).map fun p => (new, p) := by
    rw [List.filter_eq_self]
    rintro ⟨b, p⟩ hmem
    rw [List.mem_map] at hmem
    obtain ⟨p', _, heq⟩ := hmem
    simp only [Prod.mk.injEq] at heq
    obtain ⟨rfl, rfl⟩ := heq
    rw [keyEq_some_left, hnew]
  rw [h1, h2, List.map_nil, List.nil_append, List.map_map]
  rfl

/-- C3: for every storage state and every `POST /books` body whose
`publisher_id` is the id of a publisher row and whose `date` is a `YYYY-MM-DD`
date, when no statement fails the handler sends the single response 201 with
the generated id and the echoed fields, and `GET /books/<generated id>` on the
resulting storage sends the single response 200 with that id, the name, date
and `publisher_id` of the body, and the name of a publisher row the
`publisher_id` matches.  `hfresh` is the primary key of table `book`: the id
the storage generates is not the id of a row already in the table (an INSERT
that would repeat an id fails). -/
theorem post_books_then_get (lenient : String → Date) (s : Storage) (body : BookBody)
    (p : Publisher) (d : Date) (hp : p ∈ s.publisher)
    (hpid : body.publisher_id = .scalar (some p.id))
    (hdate : parseYMD body.date = some d) (hfresh : ∀ b ∈ s.book, b.id ≠ s.bookAuto) :
    sent (postBooks lenient body noFaults s)
      = [⟨201, .bookCreated "Book created" s.bookAuto
          ⟨some s.bookAuto, body.publisher_id, body.name, body.date⟩⟩] ∧
    ∃ q ∈ s.publisher, body.publisher_id = .scalar (some q.id) ∧
      sent (getBooksId (some s.bookAuto) noFaults (postBooks lenient body noFaults s).state)
        = [⟨200, .bookRow
            ⟨s.bookAuto, body.name, body.date, some q.name, some q.id⟩⟩] := by
  have hne : ¬ (selectPublisherById s body.publisher_id).length = 0 := by
    rw [selectPublisherById_length]
    intro hall
    have hw := hall p hp
    rw [hpid, (whereId_scalar p.id (some p.id)).2 rfl] at hw
    exact Bool.noConfusion hw
  have hstore : toDate lenient body.date = d := by
    simp [toDate, hdate]
  have hvalue : insertValue body.publisher_id = some p.id := by
    rw [hpid]
    rfl
  have hrun : postBooks lenient body noFaults s =
      ⟨[.query .selectPublisherById none, .query .insertBook none,
        .send ⟨201, .bookCreated "Book created" s.bookAuto
          ⟨some s.bookAuto, body.publisher_id, body.name, body.date⟩⟩],
       ⟨s.book ++ [⟨s.bookAuto, body.name, d, some p.id⟩], s.publisher,
        s.bookAuto + 1, s.publisherAuto⟩⟩ := by
    simp [postBooks, noFaults, hne, insertBook, hstore, hvalue]
  rw [hrun]
  refine ⟨by simp [sent], ?_⟩
  have hsel := selectBookJoinById_append_fresh s.book s.publisher (s.bookAuto + 1)
    s.publisherAuto ⟨s.bookAuto, body.name, d, some p.id⟩ s.bookAuto rfl hfresh
  cases hjoin : (s.publisher.filter fun q => keyEq (some p.id) (some q.id)) with
  | nil =>
    rw [List.filter_eq_nil_iff] at hjoin
    exact absurd ((keyEq_some_right _ _).2 rfl) (hjoin p hp)
  | cons q rest =>
    have hq : q ∈ s.publisher.filter fun q => keyEq (some p.id) (some q.id) := by
      rw [hjoin]
      exact List.mem_cons_self _ _
    rw [List.mem_filter, keyEq_some_right, Option.some.injEq] at hq
    refine ⟨q, hq.1, by rw [hpid, hq.2], ?_⟩
    have hpq : p.id = q.id := hq.2
    simp only at hsel
    rw [hjoin, hpq] at hsel
    simp [getBooksId, noFaults, hsel, sent, bookRow, DATE_FORMAT_parseYMD hdate, hpq]

/-- C3 (witness): the scenario of the spec, `POST /books` with
`{publisher_id: 7, name: "Title", date: "2024-01-01"}` on the storage that
holds publisher 7 "Acme", followed by `GET /books/1`. -/
theorem post_books_then_get_witness :
    sent (postBooks noLenient ⟨.scalar (some 7), "Title", "2024-01-01"⟩ noFaults acme)
      = [⟨201, .bookCreated "Book created" 1
          ⟨some 1, .scalar (some 7), "Title", "2024-01-01"⟩⟩] ∧
    ∃ q ∈ acme.publisher, Param.scalar (some 7) = .scalar (some q.id) ∧
      sent (getBooksId (some 1) noFaults
          (postBooks noLenient ⟨.scalar (some 7), "Title", "2024-01-01"⟩ noFaults acme).state)
        = [⟨200, .bookRow ⟨1, "Title", "2024-01-01", some q.name, some q.id⟩⟩] :=
  post_books_then_get noLenient acme ⟨.scalar (some 7), "Title", "2024-01-01"⟩
    ⟨7, "Acme", "1 Rd", "a@a.com"⟩ ⟨2024, 1, 1⟩ (by simp [acme]) rfl (by decide)
    (by intro b hb; simp [acme] at hb)

theorem refIntegrity_insertBook (lenient : String → Date) (s : Storage) (k : Param)
    (name date : String) (h : refIntegrity s)
    (hk : ∃ p ∈ s.publisher, insertValue k = some p.id) :
    refIntegrity (insertBook lenient s k name date).1 := by
  intro b hb
  simp only [insertBook, List.mem_append, List.mem_singleton] at hb
  rcases hb with hb | rfl
  · exact h b hb
  · exact hk

theorem refIntegrity_updateBook (lenient : String → Date) (s : Storage) (k : Param)
    (name date : String) (id : Key) (h : refIntegrity s)
    (hk : ∀ n : Int, ∃ p ∈ s.publisher, setValue n k = some p.id) :
    refIntegrity (updateBook lenient s k name date id).1 := by
  intro b hb
  simp only [updateBook, List.mem_map] at hb
  obtain ⟨b', hb', rfl⟩ := hb
  split
  · exact hk b'.id
  · exact h b' hb'

theorem refIntegrity_deleteBook (s : Storage) (id : Key) (h : refIntegrity s) :
    refIntegrity (deleteBook s id).1 := by
  intro b hb
  simp only [deleteBook, List.mem_filter] at hb
  exact h b hb.1

theorem refIntegrity_insertPublisher (s : Storage) (name address contact : String)
    (h : refIntegrity s) : refIntegrity (insertPublisher s name address contact).1 := by
  intro b hb
  obtain ⟨p, hp, hpid⟩ := h b hb
  exact ⟨p, List.mem_append_left _ hp, hpid⟩

theorem refIntegrity_deletePublisher (s : Storage) (id : Key) (h : refIntegrity s)
    (href : ∀ b ∈ s.book, keyEq b.publisher_id id = false) :
    refIntegrity (deletePublisher s id).1 := by
  intro b hb
  obtain ⟨p, hp, hpid⟩ := h b hb
  refine ⟨p, ?_, hpid⟩
  simp only [deletePublisher, List.mem_filter, Bool.not_eq_true']
  refine ⟨hp, ?_⟩
  have := href b hb
  rw [hpid] at this
  cases id with
  | none => rfl
  | some n =>
    simp only [keyEq, decide_eq_false_iff_not] at this ⊢
    exact this

theorem publisher_of_select (s : Storage) (k : Key)
    (h : ¬ (selectPublisherById s (.scalar k)).length = 0) :
    ∃ p ∈ s.publisher, k = some p.id := by
  rw [selectPublisherById_length] at h
  push_neg at h
  obtain ⟨p, hp, hw⟩ := h
  rw [ne_eq, Bool.not_eq_false, whereId_scalar] at hw
  exact ⟨p, hp, hw⟩

/-- Referential integrity is kept by every handler run on its own when the
body's `publisher_id`, if the request has one, is a scalar: whatever the path
id, the other fields and the failing statements. -/
theorem refIntegrity_handle_scalar (lenient : String → Date) (req : Request) (fl : Faults)
    (s : Storage) (hscalar : scalarBody req = true) (h : refIntegrity s) :
    refIntegrity (handle lenient req fl s).state := by
  cases req with
  | getBooks =>
    simp only [handle, getBooks]
    split <;> exact h
  | getBooksId id =>
    simp only [handle, getBooksId]
    split
    · exact h
    · split <;> exact h
  | postBooks body =>
    obtain ⟨param, name, date⟩ := body
    cases param with
    | idObject k => exact absurd hscalar (by simp [scalarBody])
    | scalar k =>
      simp only [handle, postBooks]
      split
      · exact h
      · split
        · exact h
        · rename_i hsel
          split
          · exact h
          · exact refIntegrity_insertBook lenient s _ _ _ h (publisher_of_select s k hsel)
  | putBooksId id body =>
    obtain ⟨param, name, date⟩ := body
    cases param with
    | idObject k => exact absurd hscalar (by simp [scalarBody])
    | scalar k =>
      simp only [handle, putBooksId]
      split
      · exact h
      · split
        · exact h
        · rename_i hsel
          split
          · exact h
          · split <;>
              exact refIntegrity_updateBook lenient s _ _ _ _ h
                (fun _ => publisher_of_select s k hsel)
  | deleteBooksId id =>
    simp only [handle, deleteBooksId]
    split
    · exact h
    · split <;> exact refIntegrity_deleteBook s id h
  | getPublishers =>
    simp only [handle, getPublishers]
    split <;> exact h
  | postPublishers body =>
    simp only [handle, postPublishers]
    split
    · exact h
    · exact refIntegrity_insertPublisher s _ _ _ h
  | deletePublishersId id =>
    simp only [handle, deletePublishersId]
    split
    · exact h
    · split
      · exact h
      · rename_i href
        have href' : ∀ b ∈ s.book, keyEq b.publisher_id id = false := by
          rw [← selectBookByPublisher_length]
          omega
        split
        · exact h
        · split <;> exact refIntegrity_deletePublisher s id h href'

/-- C6 (failing input): referential integrity is not kept by
`PUT /books/:id` when the body's `publisher_id` is the object `{"id": 1}`.
On the storage with book 1 of publisher 7 and publishers 7 and 8, where
integrity holds, `PUT /books/1` with
`{"publisher_id": {"id": 1}, "name": "x", "date": "2024-01-01"}` passes the
existence check (`id = id = 1` holds on every publisher row), stores
`publisher_id` 1 in book 1 and answers 200, although no publisher has id 1. -/
theorem put_object_publisher_breaks_refIntegrity :
    refIntegrity acmeAndOther ∧
    selectPublisherById acmeAndOther (.idObject (some 1)) = [7, 8] ∧
    sent (handle noLenient
        (.putBooksId (some 1) ⟨.idObject (some 1), "x", "2024-01-01"⟩) noFaults acmeAndOther)
      = [⟨200, .bookUpdated "Book updated"
          ⟨some 1, .idObject (some 1), "x", "2024-01-01"⟩⟩] ∧
    (handle noLenient
        (.putBooksId (some 1) ⟨.idObject (some 1), "x", "2024-01-01"⟩) noFaults
        acmeAndOther).state.book
      = [⟨1, "x", ⟨2024, 1, 1⟩, some 1⟩] ∧
    ¬ refIntegrity (handle noLenient
        (.putBooksId (some 1) ⟨.idObject (some 1), "x", "2024-01-01"⟩) noFaults
        acmeAndOther).state := by
  refine ⟨?_, by decide, by decide, by decide, ?_⟩
  · unfold refIntegrity
    decide
  · unfold refIntegrity
    decide

/-- C9: for every route and every request, if a statement issued by the
handler fails with error value `e`, the handler sends exactly one response,
with status 500 and body `error` set to the constant of the failed statement;
and a run in which the same statements fail with other error values sends the
same responses. -/
theorem storage_failure_response (lenient : String → Date) (req : Request) (fl : Faults)
    (s : Storage) (stmt : Stmt) (e : DbError)
    (hfail : Effect.query stmt (some e) ∈ (handle lenient req fl s).trace) :
    sent (handle lenient req fl s) = [⟨500, .error (failureMessage stmt)⟩] ∧
    ∀ fl' : Faults, sameFailures fl fl' →
      sent (handle lenient req fl' s) = sent (handle lenient req fl s) := by
  constructor
  · cases req <;> rcases fl with ⟨_ | e1, _ | e2⟩ <;>
      simp only [handle, getBooks, getBooksId, postBooks, putBooksId, deleteBooksId,
        getPublishers, postPublishers, deletePublishersId] at hfail ⊢ <;>
      (try split at hfail) <;> (try split at hfail) <;>
      simp_all [sent, failureMessage]
  · intro fl' hsame
    rcases fl with ⟨_ | e1, _ | e2⟩ <;> rcases fl' with ⟨_ | e1', _ | e2'⟩ <;>
      simp only [sameFailures, Option.isSome_none, Option.isSome_some, and_self, and_true,
        and_false, false_and, true_and, Bool.true_eq_false, Bool.false_eq_true,
        reduceCtorEq] at hsame <;>
      cases req <;>
      simp only [handle, getBooks, getBooksId, postBooks, putBooksId, deleteBooksId,
        getPublishers, postPublishers, deletePublishersId] <;>
      (try split) <;> simp [sent]

/-- C9 (witness): `POST /books` naming the existing publisher 7 whose INSERT
fails: the response is 500 "Failed to create book" whether the error is a lost
connection or a deadlock. -/
theorem storage_failure_response_witness :
    sent (handle noLenient (.postBooks ⟨.scalar (some 7), "Title", "2024-01-01"⟩)
        ⟨none, some ⟨"ECONNRESET", "read ECONNRESET"⟩⟩ acme)
      = [⟨500, .error "Failed to create book"⟩] ∧
    sent (handle noLenient (.postBooks ⟨.scalar (some 7), "Title", "2024-01-01"⟩)
        ⟨none, some ⟨"ER_LOCK_DEADLOCK", "Deadlock found when trying to get lock"⟩⟩ acme)
      = sent (handle noLenient (.postBooks ⟨.scalar (some 7), "Title", "2024-01-01"⟩)
        ⟨none, some ⟨"ECONNRESET", "read ECONNRESET"⟩⟩ acme) :=
  have h := storage_failure_response noLenient
    (.postBooks ⟨.scalar (some 7), "Title", "2024-01-01"⟩)
    ⟨none, some ⟨"ECONNRESET", "read ECONNRESET"⟩⟩ acme .insertBook
    ⟨"ECONNRESET", "read ECONNRESET"⟩ (by decide)
  ⟨h.1, h.2 ⟨none, some ⟨"ER_LOCK_DEADLOCK", "Deadlock found when trying to get lock"⟩⟩
    ⟨rfl, rfl⟩⟩

end CrudBackend
